import Mathlib

/-!
Shallow embedding of the webhook dispatcher of `@stripe-sdk/core`
(src/server/webhooks/index.ts) and the configuration singleton
(src/server/stripe-client.ts).

Modelling conventions:
* JavaScript thrown values are `JSValue`: an `Error` instance carrying its
  message, or any other value carried by its `String()` coercion.
* Fallible code returns `Except JSValue _`.
* The module-level mutable state of stripe-client.ts (`stripeInstance`,
  `currentConfig`) is passed explicitly as a `ClientState`.
* The external Stripe instance is used by the dispatcher only through
  `stripe.webhooks.constructEvent`; it is modelled as an opaque verifier
  function stored in the state.
* Side effects (verification calls, handler calls, callback calls) are
  recorded in an explicit trace (`List CallEvent`) emitted alongside each
  result, in execution order.  User callbacks `onError` and
  `onUnhandledEvent` have declared type `(…) => void | Promise<void>` and
  are modelled as total; their invocations and arguments are the trace.
  Handlers are modelled as fallible because handleWebhook explicitly
  catches what they throw.
-/

/-- A JavaScript runtime value as it appears in a `throw`/`catch`:
either an `Error` instance with its `message`, or any other value
represented by its `String()` coercion. -/
inductive JSValue where
  | error (message : String)
  | other (stringRep : String)
deriving DecidableEq, Repr

/-- A Stripe event as consumed by the dispatcher: `id`, a `type` used for
routing, and an opaque payload (`data.object`), passed through untouched. -/
structure Event where
  id : String
  type : String
  payload : String
deriving DecidableEq, Repr

/-- `StripeSDKConfig` (src/types, part_020 lines 4–11). `apiVersion` and
`appInfo` are opaque strings here; only field presence matters to the claims. -/
structure StripeSDKConfig where
  secretKey : String
  publishableKey : String
  webhookSecret : Option String
  apiVersion : Option String
  appInfo : Option String
  maxNetworkRetries : Option Nat
deriving DecidableEq, Repr

/-- The result type of `getConfig`: `Omit<StripeSDKConfig, 'secretKey'>` —
every field of `StripeSDKConfig` except `secretKey`. -/
structure SafeConfig where
  publishableKey : String
  webhookSecret : Option String
  apiVersion : Option String
  appInfo : Option String
  maxNetworkRetries : Option Nat
deriving DecidableEq, Repr

/-- The external signature-verification primitive
`stripe.webhooks.constructEvent(body, signature, secret)`: returns the
parsed event or throws. -/
def Verifier : Type := String → String → String → Except JSValue Event

/-- The module-level state of stripe-client.ts: the `stripeInstance` and
`currentConfig` singletons (both `null` before `initStripe` is called). -/
structure ClientState where
  stripeInstance : Option Verifier
  currentConfig : Option StripeSDKConfig

/-- Message of the error thrown by `getStripe`/`getConfig` when
`initStripe` has not been called. -/
def notInitializedMessage : String :=
  "[@stripe-sdk/core] Stripe not initialized. Call initStripe(\x7b secretKey, publishableKey \x7d) first."

/-- Message of the error thrown by `createWebhookHandler` when no webhook
secret can be resolved. -/
def secretRequiredMessage : String :=
  "[@stripe-sdk/core] Webhook secret is required. Pass it via config.secret or initStripe(\x7b webhookSecret \x7d)."

/-- `initStripe` (stripe-client.ts lines 7–21): stores the config and a new
Stripe instance built from `config.secretKey`.  The Stripe constructor is
external; `mkInstance` stands for it. -/
def initStripe (mkInstance : StripeSDKConfig → Verifier) (config : StripeSDKConfig)
    (_st : ClientState) : Verifier × ClientState :=
  (mkInstance config, { stripeInstance := some (mkInstance config), currentConfig := some config })

/-- `getStripe` (stripe-client.ts lines 23–30): throws when `stripeInstance`
is null, otherwise returns it. -/
def getStripe (st : ClientState) : Except JSValue Verifier :=
  match st.stripeInstance with
  | none => Except.error (JSValue.error notInitializedMessage)
  | some s => Except.ok s

/-- `getConfig` (stripe-client.ts lines 32–40): throws when `currentConfig`
is null; otherwise destructures `secretKey` away and returns the rest. -/
def getConfig (st : ClientState) : Except JSValue SafeConfig :=
  match st.currentConfig with
  | none => Except.error (JSValue.error notInitializedMessage)
  | some c =>
      Except.ok
        { publishableKey := c.publishableKey
          webhookSecret := c.webhookSecret
          apiVersion := c.apiVersion
          appInfo := c.appInfo
          maxNetworkRetries := c.maxNetworkRetries }

/-- A registered webhook handler (`WebhookHandler`): user code that may
throw, modelled as `Except`. -/
def WebhookHandler : Type := Event → Except JSValue Unit

/-- The `onError` callback: `(error: Error, event?: Stripe.Event) => void | Promise<void>`. -/
def ErrorCallback : Type := JSValue → Option Event → Unit

/-- The `onUnhandledEvent` callback: `(event: Stripe.Event) => void | Promise<void>`. -/
def UnhandledCallback : Type := Event → Unit

/-- `WebhookConfig` (webhooks/index.ts lines 7–12).  `handlers` is the
`WebhookHandlerMap`, an event-type-indexed partial map. -/
structure WebhookConfig where
  secret : Option String
  handlers : String → Option WebhookHandler
  onError : Option ErrorCallback
  onUnhandledEvent : Option UnhandledCallback

/-- The success value of dispatch: `{ received: true; type: string }`. -/
structure DispatchResult where
  received : Bool
  type : String
deriving DecidableEq, Repr

/-- One observable call made during a dispatch, with its arguments,
recorded in execution order. -/
inductive CallEvent where
  | verifyCall (body signature secret : String)
  | handlerCall (eventType : String) (event : Event)
  | onErrorCall (error : JSValue) (event : Option Event)
  | onUnhandledCall (event : Event)
deriving DecidableEq, Repr

/-- `err instanceof Error ? err : new Error('Webhook signature verification failed')`
(webhooks/index.ts line 33). -/
def toVerificationError : JSValue → JSValue
  | JSValue.error m => JSValue.error m
  | JSValue.other _ => JSValue.error "Webhook signature verification failed"

/-- `error instanceof Error ? error : new Error(String(error))`
(webhooks/index.ts line 47). -/
def toHandlerError : JSValue → JSValue
  | JSValue.error m => JSValue.error m
  | JSValue.other s => JSValue.error s

/-- The inner `handleWebhook` closure returned by `createWebhookHandler`
(webhooks/index.ts lines 23–58), instrumented with a call trace.
`webhookSecret` is the secret resolved at construction; the client state is
read at dispatch time (`getStripe()` is the first statement). -/
def handleWebhook (config : WebhookConfig) (webhookSecret : String)
    (st : ClientState) (body : String) (signature : String) :
    Except JSValue DispatchResult × List CallEvent :=
  match getStripe st with
  | Except.error e => (Except.error e, [])
  | Except.ok verify =>
    match verify body signature webhookSecret with
    | Except.error err =>
        let verificationError := toVerificationError err
        (Except.error verificationError,
          CallEvent.verifyCall body signature webhookSecret ::
            (match config.onError with
             | some _ => [CallEvent.onErrorCall verificationError none]
             | none => []))
    | Except.ok event =>
        match config.handlers event.type with
        | some handler =>
          (match handler event with
           | Except.ok _ =>
               (Except.ok { received := true, type := event.type },
                 [CallEvent.verifyCall body signature webhookSecret,
                  CallEvent.handlerCall event.type event])
           | Except.error herr =>
               match config.onError with
               | some _ =>
                   (Except.ok { received := true, type := event.type },
                     [CallEvent.verifyCall body signature webhookSecret,
                      CallEvent.handlerCall event.type event,
                      CallEvent.onErrorCall (toHandlerError herr) (some event)])
               | none =>
                   (Except.error herr,
                     [CallEvent.verifyCall body signature webhookSecret,
                      CallEvent.handlerCall event.type event]))
        | none =>
          match config.onUnhandledEvent with
          | some _ =>
              (Except.ok { received := true, type := event.type },
                [CallEvent.verifyCall body signature webhookSecret,
                 CallEvent.onUnhandledCall event])
          | none =>
              (Except.ok { received := true, type := event.type },
                [CallEvent.verifyCall body signature webhookSecret])

/-- The type of the dispatch operation returned by `createWebhookHandler`. -/
def Dispatch : Type :=
  ClientState → String → String → Except JSValue DispatchResult × List CallEvent

/-- `createWebhookHandler` (webhooks/index.ts lines 14–58):
`const webhookSecret = config.secret ?? getConfig().webhookSecret` (the
fallback is evaluated only when `config.secret` is nullish, and `getConfig`
throws when uninitialized), then `if (!webhookSecret) throw …` (JS falsiness:
both a missing secret and the empty string fail), then returns the
`handleWebhook` closure over the resolved secret. -/
def createWebhookHandler (config : WebhookConfig) (st : ClientState) :
    Except JSValue Dispatch :=
  match
    (match config.secret with
     | some s => Except.ok (some s)
     | none => Except.map SafeConfig.webhookSecret (getConfig st)) with
  | Except.error e => Except.error e
  | Except.ok none => Except.error (JSValue.error secretRequiredMessage)
  | Except.ok (some s) =>
      if s = "" then Except.error (JSValue.error secretRequiredMessage)
      else Except.ok (handleWebhook config s)

/-- Calls of the `onError` callback recorded in a trace, with their
`(error, event?)` arguments. -/
def onErrorCalls (tr : List CallEvent) : List (JSValue × Option Event) :=
  tr.filterMap fun e =>
    match e with
    | CallEvent.onErrorCall err ev => some (err, ev)
    | _ => none

/-- Calls of registered handlers recorded in a trace. -/
def handlerCalls (tr : List CallEvent) : List (String × Event) :=
  tr.filterMap fun e =>
    match e with
    | CallEvent.handlerCall t ev => some (t, ev)
    | _ => none

/-- Calls of the `onUnhandledEvent` callback recorded in a trace. -/
def unhandledCalls (tr : List CallEvent) : List Event :=
  tr.filterMap fun e =>
    match e with
    | CallEvent.onUnhandledCall ev => some ev
    | _ => none

/-- Signature-verification calls recorded in a trace. -/
def verifyCalls (tr : List CallEvent) : List (String × String × String) :=
  tr.filterMap fun e =>
    match e with
    | CallEvent.verifyCall b s sec => some (b, s, sec)
    | _ => none

/-- `const MAX_BODY_SIZE = 1024 * 1024` (webhooks/index.ts line 5). -/
def MAX_BODY_SIZE : Nat := 1024 * 1024

/-- JavaScript `parseInt(s, 10)`: skip leading whitespace, optional sign,
longest digit prefix; `none` stands for `NaN` (no digits). -/
def parseIntBase10 (s : String) : Option Int :=
  let cs := s.toList.dropWhile fun c => c == ' ' || c == '\t' || c == '\n' || c == '\r'
  let signAndRest : Int × List Char :=
    match cs with
    | '-' :: rest => (-1, rest)
    | '+' :: rest => (1, rest)
    | _ => (1, cs)
  let digits := signAndRest.2.takeWhile Char.isDigit
  if digits.isEmpty then none
  else some (signAndRest.1 * (digits.foldl (fun acc c => acc * 10 + (c.toNat - 48)) 0 : Nat))

/-- A duck-typed HTTP request as consumed by the Next.js App Router
adapter: `method`, a header map (`headers.get`), and the text body
(`await request.text()`). -/
structure Request where
  method : String
  headers : List (String × String)
  body : String

/-- `headers.get(name)`: `null` when the header is absent. -/
def headersGet (hs : List (String × String)) (name : String) : Option String :=
  Option.map Prod.snd (hs.find? fun p => p.1 == name)

/-- An HTTP response: status code and optional serialized body
(`new Response(null, …)` has no body). -/
structure HttpResponse where
  status : Nat
  body : Option String
deriving DecidableEq, Repr

/-- `JSON.stringify({ error: msg })` for the plain messages this module
emits (no characters needing JSON escaping). -/
def jsonErrorBody (msg : String) : String :=
  "\x7b\"error\":\"" ++ msg ++ "\"\x7d"

/-- `JSON.stringify(result)` for the dispatch success value
`{ received: true, type }`. -/
def jsonResultBody (r : DispatchResult) : String :=
  "\x7b\"received\":" ++ (if r.received then "true" else "false") ++
    ",\"type\":\"" ++ r.type ++ "\"\x7d"

/-- The guard `contentLength && parseInt(contentLength, 10) > MAX_BODY_SIZE`
(webhooks/index.ts line 73): a `null` or empty header is falsy, and a `NaN`
comparison is false. -/
def contentLengthExceedsMax (cl : Option String) : Bool :=
  match cl with
  | none => false
  | some s =>
      if s = "" then false
      else
        match parseIntBase10 s with
        | none => false
        | some n => decide ((MAX_BODY_SIZE : Int) < n)

/-- The `POST` route returned by `createNextWebhookHandler`
(webhooks/index.ts lines 66–112), abstracted over the dispatch operation it
closes over.  Order of checks follows the source: method, declared
content-length, actual body length, signature header presence (`!signature`
is also true for an empty header), then dispatch; any dispatch error is
caught and mapped to a fixed 400 response. -/
def nextPOSTwith (handler : Dispatch) (st : ClientState) (req : Request) :
    HttpResponse × List CallEvent :=
  if req.method ≠ "POST" then ({ status := 405, body := none }, [])
  else if contentLengthExceedsMax (headersGet req.headers "content-length") then
    ({ status := 413, body := some (jsonErrorBody "Webhook body too large") }, [])
  else if MAX_BODY_SIZE < req.body.length then
    ({ status := 413, body := some (jsonErrorBody "Webhook body too large") }, [])
  else
    match headersGet req.headers "stripe-signature" with
    | none =>
        ({ status := 400, body := some (jsonErrorBody "Missing stripe-signature header") }, [])
    | some signature =>
        if signature = "" then
          ({ status := 400, body := some (jsonErrorBody "Missing stripe-signature header") }, [])
        else
          match handler st req.body signature with
          | (Except.ok r, tr) =>
              ({ status := 200, body := some (jsonResultBody r) }, tr)
          | (Except.error _, tr) =>
              ({ status := 400, body := some (jsonErrorBody "Webhook processing failed") }, tr)

/-- `createNextWebhookHandler` (webhooks/index.ts lines 63–112): constructs
the dispatcher, then returns the `POST` route closing over it. -/
def createNextWebhookHandler (config : WebhookConfig) (st : ClientState) :
    Except JSValue (ClientState → Request → HttpResponse × List CallEvent) :=
  Except.map (fun h => nextPOSTwith h) (createWebhookHandler config st)

/-- One event of the streaming request consumed by `getRawBody`
(webhooks/index.ts lines 148–189): a `data` chunk of bytes, the `end`
event, or an `error` event. -/
inductive StreamEvent where
  | dataChunk (chunk : List UInt8)
  | endOfStream
  | streamError (e : JSValue)

/-- The state of the promise executor inside `getRawBody`'s streaming
branch: the buffered `chunks`, the running `totalLength`, the `rejected`
flag, and the settlement of the promise (a promise settles at most once;
later `resolve`/`reject` calls are no-ops). -/
structure RawBodyState where
  chunks : List (List UInt8)
  totalLength : Nat
  rejected : Bool
  settled : Option (Except JSValue (List UInt8))

/-- Promise settlement: the first `resolve`/`reject` wins. -/
def settle (cur : Option (Except JSValue (List UInt8)))
    (v : Except JSValue (List UInt8)) : Option (Except JSValue (List UInt8)) :=
  match cur with
  | some x => some x
  | none => some v

/-- `Buffer.concat(chunks)`. -/
def bufferConcat (chunks : List (List UInt8)) : List UInt8 := chunks.flatten

/-- One listener invocation of `getRawBody`'s streaming branch
(webhooks/index.ts lines 171–188): the `data` listener returns early when
`rejected`, adds the chunk's length to the running total, rejects and sets
`rejected` when the total exceeds the cap (without pushing the chunk), and
pushes the chunk otherwise; the `end` listener resolves the concatenated
buffer only when not `rejected`; the `error` listener rejects with the
stream's error. -/
def rawBodyStep (st : RawBodyState) (ev : StreamEvent) : RawBodyState :=
  match ev with
  | StreamEvent.dataChunk chunk =>
      if st.rejected then st
      else
        let total := st.totalLength + chunk.length
        if MAX_BODY_SIZE < total then
          { st with totalLength := total, rejected := true,
                    settled := settle st.settled (Except.error (JSValue.error "Webhook body too large")) }
        else
          { st with totalLength := total, chunks := st.chunks ++ [chunk] }
  | StreamEvent.endOfStream =>
      if st.rejected then st
      else { st with settled := settle st.settled (Except.ok (bufferConcat st.chunks)) }
  | StreamEvent.streamError e =>
      { st with settled := settle st.settled (Except.error e) }

/-- The initial executor state of `getRawBody`'s streaming branch. -/
def initialRawBodyState : RawBodyState :=
  { chunks := [], totalLength := 0, rejected := false, settled := none }

/-- `getRawBody` on a streaming request: process the emitted events in
order. -/
def runRawBody (events : List StreamEvent) : RawBodyState :=
  events.foldl rawBodyStep initialRawBodyState

/-- Total number of bytes currently buffered. -/
def bufferedBytes (st : RawBodyState) : Nat :=
  (st.chunks.map List.length).sum

/-- When the state holds a Stripe instance, `getStripe` returns it. -/
theorem getStripe_some (st : ClientState) (v : Verifier)
    (h : st.stripeInstance = some v) : getStripe st = Except.ok v := by
  simp [getStripe, h]

/-- C1: when signature verification fails, dispatch raises the verification
error to its caller before any registered handler is invoked; if `onError`
is configured it is called exactly once, with the error and no event
argument; the error is re-raised even when `onError` is configured. -/
theorem C1_verification_failure_raises_and_notifies
    (config : WebhookConfig) (ws : String) (st : ClientState) (v : Verifier)
    (body signature : String) (err : JSValue)
    (hinst : st.stripeInstance = some v)
    (hfail : v body signature ws = Except.error err) :
    (handleWebhook config ws st body signature).1
        = Except.error (toVerificationError err)
  ∧ handlerCalls (handleWebhook config ws st body signature).2 = []
  ∧ (config.onError.isSome →
       onErrorCalls (handleWebhook config ws st body signature).2
         = [(toVerificationError err, none)])
  ∧ (config.onError = none →
       onErrorCalls (handleWebhook config ws st body signature).2 = []) := by
  have hg := getStripe_some st v hinst
  cases hoe : config.onError <;>
    simp [handleWebhook, hg, hfail, handlerCalls, onErrorCalls, hoe]

/-- C1 witness: a concrete failing verification with `onError` configured. -/
theorem C1_witness :
    (handleWebhook
        { secret := some "whsec", handlers := fun _ => none,
          onError := some (fun _ _ => ()), onUnhandledEvent := none }
        "whsec"
        { stripeInstance := some (fun _ _ _ => Except.error (JSValue.error "bad sig")),
          currentConfig := none }
        "payload" "t=1,v1=x").1
        = Except.error (toVerificationError (JSValue.error "bad sig"))
  ∧ handlerCalls (handleWebhook
        { secret := some "whsec", handlers := fun _ => none,
          onError := some (fun _ _ => ()), onUnhandledEvent := none }
        "whsec"
        { stripeInstance := some (fun _ _ _ => Except.error (JSValue.error "bad sig")),
          currentConfig := none }
        "payload" "t=1,v1=x").2 = []
  ∧ ((some (fun _ _ => ()) : Option ErrorCallback).isSome →
       onErrorCalls (handleWebhook
        { secret := some "whsec", handlers := fun _ => none,
          onError := some (fun _ _ => ()), onUnhandledEvent := none }
        "whsec"
        { stripeInstance := some (fun _ _ _ => Except.error (JSValue.error "bad sig")),
          currentConfig := none }
        "payload" "t=1,v1=x").2
         = [(toVerificationError (JSValue.error "bad sig"), none)])
  ∧ ((some (fun _ _ => ()) : Option ErrorCallback) = none →
       onErrorCalls (handleWebhook
        { secret := some "whsec", handlers := fun _ => none,
          onError := some (fun _ _ => ()), onUnhandledEvent := none }
        "whsec"
        { stripeInstance := some (fun _ _ _ => Except.error (JSValue.error "bad sig")),
          currentConfig := none }
        "payload" "t=1,v1=x").2 = []) :=
  C1_verification_failure_raises_and_notifies
    { secret := some "whsec", handlers := fun _ => none,
      onError := some (fun _ _ => ()), onUnhandledEvent := none }
    "whsec"
    { stripeInstance := some (fun _ _ _ => Except.error (JSValue.error "bad sig")),
      currentConfig := none }
    (fun _ _ _ => Except.error (JSValue.error "bad sig"))
    "payload" "t=1,v1=x" (JSValue.error "bad sig") rfl rfl

/-- C2: when verification succeeds and the registered handler for the
event's type throws: with `onError` configured, `onError` is called exactly
once with `(error, event)`, the exception is swallowed and dispatch returns
`{received: true, type: event.type}`; without `onError`, the thrown error
propagates out of dispatch unchanged and no success value is returned. -/
theorem C2_handler_throw_swallow_or_propagate
    (config : WebhookConfig) (ws : String) (st : ClientState) (v : Verifier)
    (body signature : String) (event : Event) (h : WebhookHandler) (herr : JSValue)
    (hinst : st.stripeInstance = some v)
    (hok : v body signature ws = Except.ok event)
    (hreg : config.handlers event.type = some h)
    (hthrow : h event = Except.error herr) :
    (config.onError.isSome →
        (handleWebhook config ws st body signature).1
            = Except.ok { received := true, type := event.type }
      ∧ onErrorCalls (handleWebhook config ws st body signature).2
            = [(toHandlerError herr, some event)])
  ∧ (config.onError = none →
        (handleWebhook config ws st body signature).1 = Except.error herr
      ∧ onErrorCalls (handleWebhook config ws st body signature).2 = []) := by
  have hg := getStripe_some st v hinst
  cases hoe : config.onError <;>
    simp [handleWebhook, hg, hok, hreg, hthrow, onErrorCalls, hoe]

/-- C2 witness: a concrete throwing handler with `onError` configured. -/
theorem C2_witness :
    ((some (fun _ _ => ()) : Option ErrorCallback).isSome →
        (handleWebhook
          { secret := some "whsec",
            handlers := fun t => if t = "invoice.paid" then some (fun _ => Except.error (JSValue.error "DB down")) else none,
            onError := some (fun _ _ => ()), onUnhandledEvent := none }
          "whsec"
          { stripeInstance := some (fun _ _ _ => Except.ok { id := "evt_1", type := "invoice.paid", payload := "p" }),
            currentConfig := none }
          "payload" "sig").1
            = Except.ok { received := true, type := Event.type { id := "evt_1", type := "invoice.paid", payload := "p" } }
      ∧ onErrorCalls (handleWebhook
          { secret := some "whsec",
            handlers := fun t => if t = "invoice.paid" then some (fun _ => Except.error (JSValue.error "DB down")) else none,
            onError := some (fun _ _ => ()), onUnhandledEvent := none }
          "whsec"
          { stripeInstance := some (fun _ _ _ => Except.ok { id := "evt_1", type := "invoice.paid", payload := "p" }),
            currentConfig := none }
          "payload" "sig").2
            = [(toHandlerError (JSValue.error "DB down"), some { id := "evt_1", type := "invoice.paid", payload := "p" })])
  ∧ ((some (fun _ _ => ()) : Option ErrorCallback) = none →
        (handleWebhook
          { secret := some "whsec",
            handlers := fun t => if t = "invoice.paid" then some (fun _ => Except.error (JSValue.error "DB down")) else none,
            onError := some (fun _ _ => ()), onUnhandledEvent := none }
          "whsec"
          { stripeInstance := some (fun _ _ _ => Except.ok { id := "evt_1", type := "invoice.paid", payload := "p" }),
            currentConfig := none }
          "payload" "sig").1 = Except.error (JSValue.error "DB down")
      ∧ onErrorCalls (handleWebhook
          { secret := some "whsec",
            handlers := fun t => if t = "invoice.paid" then some (fun _ => Except.error (JSValue.error "DB down")) else none,
            onError := some (fun _ _ => ()), onUnhandledEvent := none }
          "whsec"
          { stripeInstance := some (fun _ _ _ => Except.ok { id := "evt_1", type := "invoice.paid", payload := "p" }),
            currentConfig := none }
          "payload" "sig").2 = []) :=
  C2_handler_throw_swallow_or_propagate
    { secret := some "whsec",
      handlers := fun t => if t = "invoice.paid" then some (fun _ => Except.error (JSValue.error "DB down")) else none,
      onError := some (fun _ _ => ()), onUnhandledEvent := none }
    "whsec"
    { stripeInstance := some (fun _ _ _ => Except.ok { id := "evt_1", type := "invoice.paid", payload := "p" }),
      currentConfig := none }
    (fun _ _ _ => Except.ok { id := "evt_1", type := "invoice.paid", payload := "p" })
    "payload" "sig"
    { id := "evt_1", type := "invoice.paid", payload := "p" }
    (fun _ => Except.error (JSValue.error "DB down"))
    (JSValue.error "DB down")
    rfl rfl (by simp) rfl

/-- C6: when verification succeeds and no handler is registered for the
event's type: `onUnhandledEvent`, when configured, is called exactly once
with the event, and otherwise no callback is invoked; in both cases
dispatch returns `{received: true, type: event.type}`. -/
theorem C6_unhandled_event_dispatch
    (config : WebhookConfig) (ws : String) (st : ClientState) (v : Verifier)
    (body signature : String) (event : Event)
    (hinst : st.stripeInstance = some v)
    (hok : v body signature ws = Except.ok event)
    (hreg : config.handlers event.type = none) :
    (handleWebhook config ws st body signature).1
        = Except.ok { received := true, type := event.type }
  ∧ (config.onUnhandledEvent.isSome →
       unhandledCalls (handleWebhook config ws st body signature).2 = [event])
  ∧ (config.onUnhandledEvent = none →
       unhandledCalls (handleWebhook config ws st body signature).2 = []
     ∧ onErrorCalls (handleWebhook config ws st body signature).2 = []
     ∧ handlerCalls (handleWebhook config ws st body signature).2 = []) := by
  have hg := getStripe_some st v hinst
  cases hou : config.onUnhandledEvent <;>
    simp [handleWebhook, hg, hok, hreg, hou, unhandledCalls, onErrorCalls, handlerCalls]

/-- C6 witness: a concrete unmatched event with `onUnhandledEvent` configured. -/
theorem C6_witness :
    (handleWebhook
        { secret := some "whsec", handlers := fun _ => none,
          onError := none, onUnhandledEvent := some (fun _ => ()) }
        "whsec"
        { stripeInstance := some (fun _ _ _ => Except.ok { id := "evt_2", type := "unknown.event", payload := "" }),
          currentConfig := none }
        "payload" "sig").1
        = Except.ok { received := true, type := Event.type { id := "evt_2", type := "unknown.event", payload := "" } }
  ∧ ((some (fun _ => ()) : Option UnhandledCallback).isSome →
       unhandledCalls (handleWebhook
        { secret := some "whsec", handlers := fun _ => none,
          onError := none, onUnhandledEvent := some (fun _ => ()) }
        "whsec"
        { stripeInstance := some (fun _ _ _ => Except.ok { id := "evt_2", type := "unknown.event", payload := "" }),
          currentConfig := none }
        "payload" "sig").2 = [{ id := "evt_2", type := "unknown.event", payload := "" }])
  ∧ ((some (fun _ => ()) : Option UnhandledCallback) = none →
       unhandledCalls (handleWebhook
        { secret := some "whsec", handlers := fun _ => none,
          onError := none, onUnhandledEvent := some (fun _ => ()) }
        "whsec"
        { stripeInstance := some (fun _ _ _ => Except.ok { id := "evt_2", type := "unknown.event", payload := "" }),
          currentConfig := none }
        "payload" "sig").2 = []
     ∧ onErrorCalls (handleWebhook
        { secret := some "whsec", handlers := fun _ => none,
          onError := none, onUnhandledEvent := some (fun _ => ()) }
        "whsec"
        { stripeInstance := some (fun _ _ _ => Except.ok { id := "evt_2", type := "unknown.event", payload := "" }),
          currentConfig := none }
        "payload" "sig").2 = []
     ∧ handlerCalls (handleWebhook
        { secret := some "whsec", handlers := fun _ => none,
          onError := none, onUnhandledEvent := some (fun _ => ()) }
        "whsec"
        { stripeInstance := some (fun _ _ _ => Except.ok { id := "evt_2", type := "unknown.event", payload := "" }),
          currentConfig := none }
        "payload" "sig").2 = []) :=
  C6_unhandled_event_dispatch
    { secret := some "whsec", handlers := fun _ => none,
      onError := none, onUnhandledEvent := some (fun _ => ()) }
    "whsec"
    { stripeInstance := some (fun _ _ _ => Except.ok { id := "evt_2", type := "unknown.event", payload := "" }),
      currentConfig := none }
    (fun _ _ _ => Except.ok { id := "evt_2", type := "unknown.event", payload := "" })
    "payload" "sig"
    { id := "evt_2", type := "unknown.event", payload := "" }
    rfl rfl rfl

/-- C7: `createWebhookHandler` resolves the secret as `config.secret` when
provided, else the process-wide configured webhook secret; when neither
yields a non-empty secret, construction fails immediately — returning a
configuration error before any dispatch function is produced. -/
theorem C7_secret_resolution
    (config : WebhookConfig) (st : ClientState) :
    (∀ s, config.secret = some s → s ≠ "" →
        createWebhookHandler config st = Except.ok (handleWebhook config s))
  ∧ (∀ c s, config.secret = none → st.currentConfig = some c →
        c.webhookSecret = some s → s ≠ "" →
        createWebhookHandler config st = Except.ok (handleWebhook config s))
  ∧ (config.secret = some "" →
        createWebhookHandler config st = Except.error (JSValue.error secretRequiredMessage))
  ∧ (∀ c, config.secret = none → st.currentConfig = some c →
        (c.webhookSecret = none ∨ c.webhookSecret = some "") →
        createWebhookHandler config st
          = Except.error (JSValue.error secretRequiredMessage)) := by
  refine ⟨?_, ?_, ?_, ?_⟩
  · intro s hs hne
    simp [createWebhookHandler, hs, hne]
  · intro c s hs hcc hws hne
    simp [createWebhookHandler, hs, getConfig, hcc, hws, Except.map, hne]
  · intro hs
    simp [createWebhookHandler, hs]
  · intro c hs hcc hws
    cases hws with
    | inl h => simp [createWebhookHandler, hs, getConfig, hcc, h, Except.map]
    | inr h => simp [createWebhookHandler, hs, getConfig, hcc, h, Except.map]

/-- C7 witness: an explicit non-empty secret yields the dispatch closure;
an initialized state with an empty configured webhook secret fails. -/
theorem C7_witness :
    createWebhookHandler
        { secret := some "whsec_custom", handlers := fun _ => none,
          onError := none, onUnhandledEvent := none }
        { stripeInstance := none, currentConfig := none }
      = Except.ok (handleWebhook
          { secret := some "whsec_custom", handlers := fun _ => none,
            onError := none, onUnhandledEvent := none } "whsec_custom")
  ∧ createWebhookHandler
        { secret := none, handlers := fun _ => none,
          onError := none, onUnhandledEvent := none }
        { stripeInstance := none,
          currentConfig := some
            { secretKey := "sk", publishableKey := "pk", webhookSecret := none,
              apiVersion := none, appInfo := none, maxNetworkRetries := none } }
      = Except.error (JSValue.error secretRequiredMessage) :=
  ⟨(C7_secret_resolution
      { secret := some "whsec_custom", handlers := fun _ => none,
        onError := none, onUnhandledEvent := none }
      { stripeInstance := none, currentConfig := none }).1
      "whsec_custom" rfl (by decide),
   (C7_secret_resolution
      { secret := none, handlers := fun _ => none,
        onError := none, onUnhandledEvent := none }
      { stripeInstance := none,
        currentConfig := some
          { secretKey := "sk", publishableKey := "pk", webhookSecret := none,
            apiVersion := none, appInfo := none, maxNetworkRetries := none } }).2.2.2
      { secretKey := "sk", publishableKey := "pk", webhookSecret := none,
        apiVersion := none, appInfo := none, maxNetworkRetries := none }
      rfl rfl (Or.inl rfl)⟩

/-- C9: `getConfig` returns the current configuration with the `secretKey`
field absent (the result type has no such field), and two configurations
differing only in `secretKey` produce identical `getConfig` results. -/
theorem C9_getConfig_drops_secretKey
    (st : ClientState) (c : StripeSDKConfig)
    (h : st.currentConfig = some c) :
    getConfig st = Except.ok
      { publishableKey := c.publishableKey, webhookSecret := c.webhookSecret,
        apiVersion := c.apiVersion, appInfo := c.appInfo,
        maxNetworkRetries := c.maxNetworkRetries }
  ∧ ∀ (i₁ i₂ : Option Verifier) (k₁ k₂ : String),
      getConfig { stripeInstance := i₁, currentConfig := some { c with secretKey := k₁ } }
        = getConfig { stripeInstance := i₂, currentConfig := some { c with secretKey := k₂ } } := by
  constructor
  · simp [getConfig, h]
  · intro i₁ i₂ k₁ k₂
    rfl

/-- C9 witness: a concrete initialized state; the two `getConfig` results
agree for distinct secret keys. -/
theorem C9_witness :
    getConfig
        { stripeInstance := none,
          currentConfig := some
            { secretKey := "sk_live_1", publishableKey := "pk_1",
              webhookSecret := some "whsec", apiVersion := some "2025-01-27.acacia",
              appInfo := none, maxNetworkRetries := some 2 } }
      = Except.ok
          { publishableKey := "pk_1", webhookSecret := some "whsec",
            apiVersion := some "2025-01-27.acacia", appInfo := none,
            maxNetworkRetries := some 2 }
  ∧ ∀ (i₁ i₂ : Option Verifier) (k₁ k₂ : String),
      getConfig
          { stripeInstance := i₁,
            currentConfig := some
              { secretKey := k₁, publishableKey := "pk_1", webhookSecret := some "whsec",
                apiVersion := some "2025-01-27.acacia", appInfo := none,
                maxNetworkRetries := some 2 } }
        = getConfig
          { stripeInstance := i₂,
            currentConfig := some
              { secretKey := k₂, publishableKey := "pk_1", webhookSecret := some "whsec",
                apiVersion := some "2025-01-27.acacia", appInfo := none,
                maxNetworkRetries := some 2 } } :=
  C9_getConfig_drops_secretKey
    { stripeInstance := none,
      currentConfig := some
        { secretKey := "sk_live_1", publishableKey := "pk_1",
          webhookSecret := some "whsec", apiVersion := some "2025-01-27.acacia",
          appInfo := none, maxNetworkRetries := some 2 } }
    { secretKey := "sk_live_1", publishableKey := "pk_1",
      webhookSecret := some "whsec", apiVersion := some "2025-01-27.acacia",
      appInfo := none, maxNetworkRetries := some 2 }
    rfl

/-- C10: with an explicit non-empty secret, construction succeeds without
prior initialization, yet every invocation of the returned dispatch
operation against a state where `initStripe` has not been called fails with
the not-initialized error before signature verification is attempted (the
trace is empty). -/
theorem C10_dispatch_requires_initialization
    (config : WebhookConfig) (s : String) (stc std : ClientState)
    (body signature : String)
    (hs : config.secret = some s) (hne : s ≠ "")
    (hin : std.stripeInstance = none) :
    createWebhookHandler config stc = Except.ok (handleWebhook config s)
  ∧ handleWebhook config s std body signature
      = (Except.error (JSValue.error notInitializedMessage), []) := by
  constructor
  · simp [createWebhookHandler, hs, hne]
  · simp [handleWebhook, getStripe, hin]

/-- C10 witness: a concrete dispatcher built with an explicit secret on a
fully uninitialized state. -/
theorem C10_witness :
    createWebhookHandler
        { secret := some "whsec_custom", handlers := fun _ => none,
          onError := none, onUnhandledEvent := none }
        { stripeInstance := none, currentConfig := none }
      = Except.ok (handleWebhook
          { secret := some "whsec_custom", handlers := fun _ => none,
            onError := none, onUnhandledEvent := none } "whsec_custom")
  ∧ handleWebhook
        { secret := some "whsec_custom", handlers := fun _ => none,
          onError := none, onUnhandledEvent := none }
        "whsec_custom"
        { stripeInstance := none, currentConfig := none }
        "payload" "sig"
      = (Except.error (JSValue.error notInitializedMessage), []) :=
  C10_dispatch_requires_initialization
    { secret := some "whsec_custom", handlers := fun _ => none,
      onError := none, onUnhandledEvent := none }
    "whsec_custom"
    { stripeInstance := none, currentConfig := none }
    { stripeInstance := none, currentConfig := none }
    "payload" "sig" rfl (by decide) rfl

/-- Executor invariant of `getRawBody`'s streaming branch: while not
rejected, the running total equals the buffered byte count, and the buffer
never holds more than the cap. -/
def rawBodyInv (st : RawBodyState) : Prop :=
  (st.rejected = false → st.totalLength = bufferedBytes st)
  ∧ bufferedBytes st ≤ MAX_BODY_SIZE

/-- Each listener invocation preserves the executor invariant. -/
theorem rawBodyInv_step (st : RawBodyState) (ev : StreamEvent)
    (h : rawBodyInv st) : rawBodyInv (rawBodyStep st ev) := by
  obtain ⟨h1, h2⟩ := h
  cases ev with
  | dataChunk chunk =>
      cases hr : st.rejected with
      | true =>
          constructor
          · intro hfalse
            simp [rawBodyStep, hr] at hfalse
          · simpa [rawBodyStep, hr] using h2
      | false =>
          have ht : st.totalLength = bufferedBytes st := h1 hr
          by_cases hcap : MAX_BODY_SIZE < st.totalLength + chunk.length
          · constructor
            · intro hfalse
              simp [rawBodyStep, hr, hcap] at hfalse
            · simpa [rawBodyStep, hr, hcap, bufferedBytes] using h2
          · constructor
            · intro _
              simp [rawBodyStep, hr, hcap, bufferedBytes, List.sum_append]
              simp [bufferedBytes] at ht
              omega
            · simp [rawBodyStep, hr, hcap, bufferedBytes, List.sum_append]
              simp [bufferedBytes] at ht h2
              omega
  | endOfStream =>
      cases hr : st.rejected with
      | true =>
          constructor
          · intro hfalse
            simp [rawBodyStep, hr] at hfalse
          · simpa [rawBodyStep, hr] using h2
      | false =>
          constructor
          · intro _
            simpa [rawBodyStep, hr, bufferedBytes] using h1 hr
          · simpa [rawBodyStep, hr, bufferedBytes] using h2
  | streamError e =>
      constructor
      · intro hrej
        simp [rawBodyStep] at hrej ⊢
        simpa [bufferedBytes] using h1 hrej
      · simpa [rawBodyStep, bufferedBytes] using h2

/-- The executor invariant holds after any sequence of stream events. -/
theorem rawBodyInv_run (events : List StreamEvent) :
    rawBodyInv (runRawBody events) := by
  have hinit : rawBodyInv initialRawBodyState := by
    constructor <;> simp [initialRawBodyState, bufferedBytes]
  have H : ∀ (l : List StreamEvent) (st : RawBodyState),
      rawBodyInv st → rawBodyInv (l.foldl rawBodyStep st) := by
    intro l
    induction l with
    | nil => intro st h; exact h
    | cons e t ih => intro st h; exact ih _ (rawBodyInv_step st e h)
  exact H events _ hinit

/-- C3: the streaming raw-body reader rejects with the body-too-large error
as soon as the running total exceeds the cap (without appending the
offending chunk), the bytes it buffers never exceed the cap, chunks
arriving after rejection are not appended, and a settled promise stays
settled with its first outcome. -/
theorem C3_streaming_reader_caps_buffer (events : List StreamEvent) :
    bufferedBytes (runRawBody events) ≤ MAX_BODY_SIZE
  ∧ (∀ (st : RawBodyState) (chunk : List UInt8),
        st.rejected = false → st.settled = none →
        MAX_BODY_SIZE < st.totalLength + chunk.length →
        (rawBodyStep st (StreamEvent.dataChunk chunk)).settled
            = some (Except.error (JSValue.error "Webhook body too large"))
        ∧ (rawBodyStep st (StreamEvent.dataChunk chunk)).rejected = true
        ∧ (rawBodyStep st (StreamEvent.dataChunk chunk)).chunks = st.chunks)
  ∧ (∀ (st : RawBodyState) (ev : StreamEvent), st.rejected = true →
        (rawBodyStep st ev).chunks = st.chunks)
  ∧ (∀ (st : RawBodyState) (ev : StreamEvent) (x : Except JSValue (List UInt8)),
        st.settled = some x → (rawBodyStep st ev).settled = some x) := by
  refine ⟨(rawBodyInv_run events).2, ?_, ?_, ?_⟩
  · intro st chunk hr hs hcap
    refine ⟨?_, ?_, ?_⟩ <;> simp [rawBodyStep, hr, hcap, hs, settle]
  · intro st ev hr
    cases ev <;> simp [rawBodyStep, hr]
  · intro st ev x hs
    cases ev with
    | dataChunk chunk =>
        cases hr : st.rejected with
        | true => simp [rawBodyStep, hr, hs]
        | false =>
            by_cases hcap : MAX_BODY_SIZE < st.totalLength + chunk.length
            · simp [rawBodyStep, hr, hcap, hs, settle]
            · simp [rawBodyStep, hr, hcap, hs]
    | endOfStream =>
        cases hr : st.rejected with
        | true => simp [rawBodyStep, hr, hs]
        | false => simp [rawBodyStep, hr, hs, settle]
    | streamError e => simp [rawBodyStep, hs, settle]

/-- C3 witness: a stream whose second chunk pushes the total over the cap,
and concrete states exercising rejection, post-rejection chunks, and
settlement immutability. -/
theorem C3_witness :
    bufferedBytes (runRawBody [StreamEvent.dataChunk [0], StreamEvent.endOfStream])
        ≤ MAX_BODY_SIZE
  ∧ ((rawBodyStep
        { chunks := [], totalLength := MAX_BODY_SIZE, rejected := false, settled := none }
        (StreamEvent.dataChunk [0])).settled
          = some (Except.error (JSValue.error "Webhook body too large"))
      ∧ (rawBodyStep
        { chunks := [], totalLength := MAX_BODY_SIZE, rejected := false, settled := none }
        (StreamEvent.dataChunk [0])).rejected = true
      ∧ (rawBodyStep
        { chunks := [], totalLength := MAX_BODY_SIZE, rejected := false, settled := none }
        (StreamEvent.dataChunk [0])).chunks
          = RawBodyState.chunks
              { chunks := [], totalLength := MAX_BODY_SIZE, rejected := false, settled := none })
  ∧ (rawBodyStep
        { chunks := [[1]], totalLength := 1, rejected := true,
          settled := some (Except.error (JSValue.error "Webhook body too large")) }
        (StreamEvent.dataChunk [2])).chunks
      = RawBodyState.chunks
          { chunks := [[1]], totalLength := 1, rejected := true,
            settled := some (Except.error (JSValue.error "Webhook body too large")) }
  ∧ (rawBodyStep
        { chunks := [[1]], totalLength := 1, rejected := true,
          settled := some (Except.error (JSValue.error "Webhook body too large")) }
        StreamEvent.endOfStream).settled
      = some (Except.error (JSValue.error "Webhook body too large")) :=
  ⟨(C3_streaming_reader_caps_buffer [StreamEvent.dataChunk [0], StreamEvent.endOfStream]).1,
   (C3_streaming_reader_caps_buffer []).2.1
      { chunks := [], totalLength := MAX_BODY_SIZE, rejected := false, settled := none }
      [0] rfl rfl (by decide),
   (C3_streaming_reader_caps_buffer []).2.2.1
      { chunks := [[1]], totalLength := 1, rejected := true,
        settled := some (Except.error (JSValue.error "Webhook body too large")) }
      (StreamEvent.dataChunk [2]) rfl,
   (C3_streaming_reader_caps_buffer []).2.2.2
      { chunks := [[1]], totalLength := 1, rejected := true,
        settled := some (Except.error (JSValue.error "Webhook body too large")) }
      StreamEvent.endOfStream
      (Except.error (JSValue.error "Webhook body too large")) rfl⟩

/-- A dispatch stub that always succeeds; stands for an arbitrarily
configured dispatcher in concrete adapter runs. -/
def stubDispatch : Dispatch :=
  fun _ _ _ => (Except.ok { received := true, type := "t" }, [])

/-- A dispatch stub that always fails with a signature-verification-style
error message. -/
def failingDispatch : Dispatch :=
  fun _ _ _ => (Except.error (JSValue.error "Invalid signature"), [])

/-- A concrete request body one character over the 1 MiB cap. -/
def oversizedBody : String := String.mk (List.replicate (MAX_BODY_SIZE + 1) 'a')

/-- `oversizedBody` exceeds the cap. -/
theorem oversizedBody_length_gt : MAX_BODY_SIZE < oversizedBody.length := by
  simp [oversizedBody, String.length]

/-- C4 (amended): the adapter's maximum body size is the fixed constant
`MAX_BODY_SIZE = 1024 * 1024` (1 MiB); for every POST request whose body
exceeds it, the adapter responds 413 with JSON body
`{"error": "Webhook body too large"}` and the dispatcher — hence signature
verification — is never invoked (the trace is empty). -/
theorem C4_oversized_body_rejected
    (h : Dispatch) (st : ClientState) (req : Request)
    (hm : req.method = "POST")
    (hb : MAX_BODY_SIZE < req.body.length) :
    nextPOSTwith h st req
      = ({ status := 413, body := some (jsonErrorBody "Webhook body too large") }, []) := by
  by_cases hcl : contentLengthExceedsMax (headersGet req.headers "content-length")
  · simp [nextPOSTwith, hm, hcl]
  · simp [nextPOSTwith, hm, hcl, hb]

/-- C4 witness: a concrete 1 MiB + 1 body is rejected with 413. -/
theorem C4_witness :
    nextPOSTwith stubDispatch { stripeInstance := none, currentConfig := none }
        { method := "POST", headers := [], body := oversizedBody }
      = ({ status := 413, body := some (jsonErrorBody "Webhook body too large") }, []) :=
  C4_oversized_body_rejected stubDispatch
    { stripeInstance := none, currentConfig := none }
    { method := "POST", headers := [], body := oversizedBody }
    rfl (by simp [oversizedBody, String.length])

/-- C4 counterexample: the cap is NOT configurable.  No choice of dispatch
operation or client state — and therefore no `WebhookConfig`, the only
configuration surface the adapter has — changes the 413 outcome for a body
over 1 MiB: were the cap configurable, some configuration would admit this
body. -/
theorem C4_counterexample :
    ¬ ∃ (h : Dispatch) (st : ClientState),
        (nextPOSTwith h st
            { method := "POST", headers := [], body := oversizedBody }).1.status ≠ 413 := by
  rintro ⟨h, st, hne⟩
  apply hne
  have hb : MAX_BODY_SIZE < oversizedBody.length := by
    simp [oversizedBody, String.length]
  simp [nextPOSTwith, contentLengthExceedsMax, headersGet, hb]

/-- C5 (amended): for every POST request lacking the `stripe-signature`
header whose declared and actual body sizes are within the 1 MiB cap, the
adapter returns 400 with JSON body
`{"error": "Missing stripe-signature header"}` and the dispatcher's
signature-verification step is never invoked (the trace is empty). -/
theorem C5_missing_signature_header
    (h : Dispatch) (st : ClientState) (req : Request)
    (hm : req.method = "POST")
    (hcl : contentLengthExceedsMax (headersGet req.headers "content-length") = false)
    (hb : req.body.length ≤ MAX_BODY_SIZE)
    (hs : headersGet req.headers "stripe-signature" = none) :
    nextPOSTwith h st req
      = ({ status := 400, body := some (jsonErrorBody "Missing stripe-signature header") }, []) := by
  simp [nextPOSTwith, hm, hcl, hs, Nat.not_lt.mpr hb]

/-- C5 witness: a concrete within-cap POST without the header. -/
theorem C5_witness :
    nextPOSTwith stubDispatch { stripeInstance := none, currentConfig := none }
        { method := "POST", headers := [("content-type", "application/json")], body := "\x7b\x7d" }
      = ({ status := 400, body := some (jsonErrorBody "Missing stripe-signature header") }, []) :=
  C5_missing_signature_header stubDispatch
    { stripeInstance := none, currentConfig := none }
    { method := "POST", headers := [("content-type", "application/json")], body := "\x7b\x7d" }
    rfl rfl (by decide) rfl

/-- C5 counterexample: a POST lacking the `stripe-signature` header whose
body exceeds the cap is answered 413 ("Webhook body too large"), not the
400 missing-header response the claim promises for every such POST — the
size checks run first. -/
theorem C5_counterexample :
    (nextPOSTwith stubDispatch { stripeInstance := none, currentConfig := none }
        { method := "POST", headers := [], body := oversizedBody }).1.status = 413
  ∧ (nextPOSTwith stubDispatch { stripeInstance := none, currentConfig := none }
        { method := "POST", headers := [], body := oversizedBody }).1
      ≠ { status := 400, body := some (jsonErrorBody "Missing stripe-signature header") } := by
  have hb : MAX_BODY_SIZE < oversizedBody.length := by
    simp [oversizedBody, String.length]
  constructor
  · simp [nextPOSTwith, contentLengthExceedsMax, headersGet, hb]
  · simp [nextPOSTwith, contentLengthExceedsMax, headersGet, hb]

/-- C8 (amended): when the underlying dispatch fails (signature invalid, or
a handler throws with no `onError` configured), the adapter responds 400
with the fixed JSON body `{"error": "Webhook processing failed"}`,
regardless of the failure's message. -/
theorem C8_dispatch_failure_maps_to_fixed_400
    (h : Dispatch) (st : ClientState) (req : Request) (s : String)
    (e : JSValue) (tr : List CallEvent)
    (hm : req.method = "POST")
    (hcl : contentLengthExceedsMax (headersGet req.headers "content-length") = false)
    (hb : req.body.length ≤ MAX_BODY_SIZE)
    (hs : headersGet req.headers "stripe-signature" = some s)
    (hne : s ≠ "")
    (hd : h st req.body s = (Except.error e, tr)) :
    nextPOSTwith h st req
      = ({ status := 400, body := some (jsonErrorBody "Webhook processing failed") }, tr) := by
  simp [nextPOSTwith, hm, hcl, hs, hne, hd, Nat.not_lt.mpr hb]

/-- C8 witness: a concrete failing dispatch mapped to the fixed 400. -/
theorem C8_witness :
    nextPOSTwith failingDispatch { stripeInstance := none, currentConfig := none }
        { method := "POST", headers := [("stripe-signature", "t=1,v1=x")], body := "payload" }
      = ({ status := 400, body := some (jsonErrorBody "Webhook processing failed") }, []) :=
  C8_dispatch_failure_maps_to_fixed_400 failingDispatch
    { stripeInstance := none, currentConfig := none }
    { method := "POST", headers := [("stripe-signature", "t=1,v1=x")], body := "payload" }
    "t=1,v1=x" (JSValue.error "Invalid signature") []
    rfl rfl (by decide) rfl (by decide) rfl

/-- C8 counterexample: a dispatch failing with message "Invalid signature"
is answered with the fixed body "Webhook processing failed", not with the
failure's message as the claim states. -/
theorem C8_counterexample :
    (nextPOSTwith failingDispatch { stripeInstance := none, currentConfig := none }
        { method := "POST", headers := [("stripe-signature", "t=1,v1=x")], body := "payload" }).1
      = { status := 400, body := some (jsonErrorBody "Webhook processing failed") }
  ∧ (nextPOSTwith failingDispatch { stripeInstance := none, currentConfig := none }
        { method := "POST", headers := [("stripe-signature", "t=1,v1=x")], body := "payload" }).1.body
      ≠ some (jsonErrorBody "Invalid signature") := by
  constructor
  · rfl
  · decide
